import Mathlib

set_option autoImplicit false

namespace GE

/-- A scalar cell value of a pandas column holding python objects.
`null` stands for `None`/`np.nan` missing values. -/
inductive Value where
  | null
  | int (n : Int)
  | bool (b : Bool)
  | str (s : String)
  deriving DecidableEq, Repr

/-- `pd.isnull` on a single scalar. -/
def Value.isNull : Value → Bool
  | .null => true
  | _ => false

/-- The python type name of a value together with its superclasses
(`bool` is a subclass of `int` in python), as consulted by `isinstance`. -/
def Value.py_type_names : Value → List String
  | .null => ["NoneType"]
  | .int _ => ["int"]
  | .bool _ => ["bool", "int"]
  | .str _ => ["str"]

/-- `isinstance(v, tuple(comp_types))`: some (super)type of `v` is in the list. -/
def py_isinstance (v : Value) (comp_types : List String) : Bool :=
  v.py_type_names.any (fun t => comp_types.contains t)

/-- A row of the dataframe: the cell values across columns, in column order. -/
abbrev Row := List Value

/-- A pandas DataFrame: an explicit row-label index side by side with the rows.
After `reset_index(drop=True)` the index is the dense sequence `0..N-1`. -/
structure DataFrame where
  idx : List Nat
  rows : List Row
  deriving DecidableEq, Repr

/-- `df.query(cond)`: keep the rows satisfying the row predicate, with their
original row labels. -/
def DataFrame.query (df : DataFrame) (cond : Row → Bool) : DataFrame :=
  let pairs := (df.idx.zip df.rows).filter (fun p => cond p.2)
  { idx := pairs.map Prod.fst, rows := pairs.map Prod.snd }

/-- `df.reset_index(drop=True)`: replace the row labels by `0..N-1`. -/
def DataFrame.reset_index (df : DataFrame) : DataFrame :=
  { idx := List.range df.rows.length, rows := df.rows }

/-- `df[column]` as an indexed series: (row label, cell value) pairs.
A row shorter than the column position reads as null. -/
def DataFrame.col (df : DataFrame) (c : Nat) : List (Nat × Value) :=
  (df.idx.zip df.rows).map (fun p => (p.1, p.2.getD c Value.null))

/-- `row[column_list]`: restrict a row to the listed column positions. -/
def Row.select (r : Row) (cols : List Nat) : List Value :=
  cols.map (fun c => r.getD c Value.null)

/-- The four result-format detail levels. -/
inductive Level where
  | boolean_only
  | basic
  | summary
  | complete
  deriving DecidableEq, Repr

/-- A parsed result-format request: detail level plus the bound on the
partial unexpected sample. -/
structure ResultFormat where
  result_format : Level
  partial_unexpected_count : Nat
  deriving DecidableEq, Repr

/-- Modelled from the spec: `parse_result_format` (in `data_asset.util`,
outside the embedded module) normalizes the requested detail level into a
result-format record; the partial-sample bound defaults to 20. -/
def parse_result_format (level : Level) : ResultFormat :=
  { result_format := level, partial_unexpected_count := 20 }

/-- Modelled from the spec: `DataAsset._calc_map_expectation_success`
(outside the embedded module). With no evaluated rows success is vacuously
true and the ratio is null; with `mostly` unset success demands
`success_count == evaluated_count`; with `mostly` set success demands
`success_count / evaluated_count >= mostly`. -/
def calc_map_expectation_success (success_count nonnull_count : Nat)
    (mostly : Option ℚ) : Bool × Option ℚ :=
  if 0 < nonnull_count then
    let percent_success : ℚ := (success_count : ℚ) / (nonnull_count : ℚ)
    match mostly with
    | some m => (decide (m ≤ percent_success), some percent_success)
    | none => (decide (success_count = nonnull_count), some percent_success)
  else
    (true, none)

/-- The `"result"` sub-dictionary of a map-style evaluation: every field is
optional because detail levels and the null-presence special case add and
delete keys. `α` is the shape of one unexpected-evidence item. -/
structure MapResultFields (α : Type) where
  element_count : Option Nat := none
  missing_count : Option Nat := none
  missing_percent : Option (Option ℚ) := none
  unexpected_count : Option Nat := none
  unexpected_percent : Option (Option ℚ) := none
  unexpected_percent_nonmissing : Option (Option ℚ) := none
  partial_unexpected_list : Option (List α) := none
  partial_unexpected_counts : Option (List (α × Nat)) := none
  partial_unexpected_index_list : Option (List Nat) := none
  unexpected_list : Option (List α) := none
  unexpected_index_list : Option (List Nat) := none
  deriving DecidableEq, Repr

/-- The full return object of a map-style evaluation: `success` plus, above
the boolean-only level, the `"result"` sub-dictionary. -/
structure MapReturn (α : Type) where
  success : Bool
  result : Option (MapResultFields α)
  deriving DecidableEq, Repr

/-- Frequency breakdown of a sample: each distinct value with its count. -/
def value_counts {α : Type} [DecidableEq α] (l : List α) : List (α × Nat) :=
  l.dedup.map (fun v => (v, l.count v))

/-- Modelled from the spec: `DataAsset._format_map_output` (outside the
embedded module). Boolean-only carries just `success`; basic adds the scalar
counts and percentages; summary adds the bounded partial unexpected sample,
its index sample and its frequency breakdown; complete adds the full
unexpected value and index sequences. -/
def format_map_output {α : Type} [DecidableEq α] (rf : ResultFormat)
    (success : Bool) (element_count nonnull_count unexpected_count : Nat)
    (unexpected_list : List α) (unexpected_index_list : List Nat) :
    MapReturn α :=
  if rf.result_format = Level.boolean_only then
    { success := success, result := none }
  else
    let missing_count := element_count - nonnull_count
    let missing_percent : Option ℚ :=
      if 0 < element_count then
        some ((missing_count : ℚ) / (element_count : ℚ))
      else none
    let unexpected_percent : Option ℚ :=
      if 0 < element_count then
        some ((unexpected_count : ℚ) / (element_count : ℚ))
      else none
    let unexpected_percent_nonmissing : Option ℚ :=
      if 0 < nonnull_count then
        some ((unexpected_count : ℚ) / (nonnull_count : ℚ))
      else none
    let base : MapResultFields α :=
      { element_count := some element_count
        missing_count := some missing_count
        missing_percent := some missing_percent
        unexpected_count := some unexpected_count
        unexpected_percent := some unexpected_percent
        unexpected_percent_nonmissing := some unexpected_percent_nonmissing }
    if rf.result_format = Level.basic then
      { success := success, result := some base }
    else
      let sample := unexpected_list.take rf.partial_unexpected_count
      let withSummary : MapResultFields α :=
        { base with
          partial_unexpected_list := some sample
          partial_unexpected_counts := some (value_counts sample)
          partial_unexpected_index_list :=
            some (unexpected_index_list.take rf.partial_unexpected_count) }
      if rf.result_format = Level.summary then
        { success := success, result := some withSummary }
      else
        { success := success
          result := some
            { withSummary with
              unexpected_list := some unexpected_list
              unexpected_index_list := some unexpected_index_list } }

/-- The two null-presence checks that `column_map_expectation` special-cases
(source lines 97-108 and 156-168). -/
def null_check_names : List String :=
  ["expect_column_values_to_not_be_null", "expect_column_values_to_be_null"]

/-- The `boolean_mapped_null_values` mask of `column_map_expectation`:
all-False for the null-presence checks, `series.isnull()` otherwise. -/
def column_map_null_mask (funcName : String) (series : List (Nat × Value)) :
    List Bool :=
  if funcName ∈ null_check_names then series.map (fun _ => false)
  else series.map (fun p => p.2.isNull)

/-- `series[boolean_mapped_null_values == False]`: the rows of the series not
masked out. -/
def masked_out {α : Type} (series : List α) (mask : List Bool) : List α :=
  (series.zip mask).filterMap (fun p => if p.2 then none else some p.1)

/-- The non-ignored part of the series in `column_map_expectation`. -/
def column_map_nonnull (funcName : String) (series : List (Nat × Value)) :
    List (Nat × Value) :=
  masked_out series (column_map_null_mask funcName series)

/-- The non-ignored rows whose predicate came out False, still carrying their
row labels; `column_map_expectation` reads the unexpected value and index
lists off this. -/
def column_map_unexpected (pred : Value → Bool)
    (nonnull : List (Nat × Value)) : List (Nat × Value) :=
  nonnull.filter (fun p => !pred p.2)

/-- The body of the `column_map_expectation` decorator wrapper (source
lines 96-170) once the working dataset and the wrapped per-value predicate
are resolved: null masking (special-cased for the null-presence checks),
counting, threshold computation, formatting, and the null-presence field
deletions. Temporal re-rendering of unexpected evidence
(`output_strftime_format`) is not modelled. -/
def column_map_expectation_core (funcName : String) (pred : Value → Bool)
    (data : DataFrame) (c : Nat) (mostly : Option ℚ)
    (result_format : ResultFormat) : Except String (MapReturn Value) :=
  let series := data.col c
  let rf :=
    if funcName ∈ null_check_names then
      { result_format with partial_unexpected_count := 0 }
    else result_format
  let element_count := series.length
  let nonnull := column_map_nonnull funcName series
  let nonnull_count := nonnull.length
  let success_count := (nonnull.map (fun p => pred p.2)).count true
  let unexpected := column_map_unexpected pred nonnull
  let unexpected_list := unexpected.map Prod.snd
  let unexpected_index_list := unexpected.map Prod.fst
  let sp := calc_map_expectation_success success_count nonnull_count mostly
  let return_obj := format_map_output rf sp.1 element_count nonnull_count
    unexpected_list.length unexpected_list unexpected_index_list
  if funcName ∈ null_check_names then
    -- the source unconditionally deletes `unexpected_percent_nonmissing`,
    -- `missing_count` and `missing_percent` from `return_obj["result"]`
    -- (only the two partial-sample deletions are guarded against KeyError)
    match return_obj.result with
    | none => Except.error "KeyError: result"
    | some fields =>
      Except.ok
        { success := return_obj.success
          result := some
            { fields with
              unexpected_percent_nonmissing := none
              missing_count := none
              missing_percent := none
              partial_unexpected_counts := none
              partial_unexpected_list := none } }
  else Except.ok return_obj

/-- The `column_map_expectation` decorator wrapper (source lines 66-170).
`funcE` is the wrapped per-value predicate; it is an `Except` because the
wrapped function may itself raise (the type-check map expectations raise on
an unrecognized type name) at the point it is invoked. Temporal re-rendering
of unexpected evidence (`output_strftime_format`) is not modelled. -/
def column_map_expectation (funcName : String)
    (funcE : Except String (Value → Bool)) (df : DataFrame) (c : Nat)
    (mostly : Option ℚ) (level : Level) (row_condition : Option (Row → Bool))
    (conditionParser : Option String) : Except String (MapReturn Value) :=
  let result_format := parse_result_format level
  let dataE : Except String DataFrame :=
    match row_condition with
    | some cond =>
        if conditionParser = some "python" ∨ conditionParser = some "pandas"
        then Except.ok ((df.query cond).reset_index)
        else Except.error
          "conditionParser is required when setting a row_condition, and must be python or pandas"
    | none => Except.ok df
  match dataE with
  | Except.error e => Except.error e
  | Except.ok data =>
    match funcE with
    | Except.error e => Except.error e
    | Except.ok pred =>
      column_map_expectation_core funcName pred data c mostly result_format

/-- `expect_column_values_to_be_null` (source lines 804-816): the per-value
predicate is `column.isnull()`. -/
def expect_column_values_to_be_null (df : DataFrame) (c : Nat)
    (mostly : Option ℚ) (level : Level) (row_condition : Option (Row → Bool))
    (conditionParser : Option String) : Except String (MapReturn Value) :=
  column_map_expectation "expect_column_values_to_be_null"
    (Except.ok Value.isNull) df c mostly level row_condition conditionParser

/-- `expect_column_values_to_not_be_null` (source lines 787-800). -/
def expect_column_values_to_not_be_null (df : DataFrame) (c : Nat)
    (mostly : Option ℚ) (level : Level) (row_condition : Option (Row → Bool))
    (conditionParser : Option String) : Except String (MapReturn Value) :=
  column_map_expectation "expect_column_values_to_not_be_null"
    (Except.ok (fun v => !v.isNull)) df c mostly level row_condition
    conditionParser

/-- The per-value predicate of `expect_column_values_to_be_in_set` (source
lines 1265-1274): with `value_set = None` every value is marked expected
(`np.ones`), otherwise membership in the set (`column.isin`). Datetime
re-parsing of the value set is not modelled. -/
def in_set_func (value_set : Option (List Value)) : Value → Bool :=
  match value_set with
  | none => fun _ => true
  | some vs => fun v => vs.contains v

/-- `expect_column_values_to_be_in_set` through the column-map wrapper. -/
def expect_column_values_to_be_in_set (value_set : Option (List Value))
    (df : DataFrame) (c : Nat) (mostly : Option ℚ) (level : Level)
    (row_condition : Option (Row → Bool)) (conditionParser : Option String) :
    Except String (MapReturn Value) :=
  column_map_expectation "expect_column_values_to_be_in_set"
    (Except.ok (in_set_func value_set)) df c mostly level row_condition
    conditionParser

/-- The `ignore_row_if` dispatch of `column_pair_map_expectation` (source
lines 211-218): ignore a row iff both values are null, iff either is null,
or never; any other policy string raises. -/
def pair_null_mask (ignore_row_if : String) (series_A series_B : List (Nat × Value)) :
    Except String (List Bool) :=
  if ignore_row_if = "both_values_are_missing" then
    Except.ok (List.zipWith (fun a b => a.2.isNull && b.2.isNull) series_A series_B)
  else if ignore_row_if = "either_value_is_missing" then
    Except.ok (List.zipWith (fun a b => a.2.isNull || b.2.isNull) series_A series_B)
  else if ignore_row_if = "never" then
    Except.ok (series_A.map (fun _ => false))
  else
    Except.error "Unknown value of ignore_row_if"

/-- The default `ignore_row_if` of `column_pair_map_expectation`. -/
def pair_default_ignore_row_if : String := "both_values_are_missing"

/-- The default `ignore_row_if` of `multicolumn_map_expectation`. -/
def multicolumn_default_ignore_row_if : String := "all_values_are_missing"

/-- The `column_pair_map_expectation` decorator wrapper (source lines
187-278). The `conditionParser` argument exists in the signature but the
body never validates or consults it: a supplied `row_condition` is applied
directly. -/
def column_pair_map_expectation (pred : Value → Value → Bool)
    (df : DataFrame) (cA cB : Nat) (mostly : Option ℚ)
    (ignore_row_if : String) (level : Level)
    (row_condition : Option (Row → Bool)) (conditionParser : Option String) :
    Except String (MapReturn (Value × Value)) :=
  let _ := conditionParser
  let result_format := parse_result_format level
  let data :=
    match row_condition with
    | some cond => (df.query cond).reset_index
    | none => df
  let series_A := data.col cA
  let series_B := data.col cB
  match pair_null_mask ignore_row_if series_A series_B with
  | Except.error e => Except.error e
  | Except.ok mask =>
    if series_A.length ≠ series_B.length then
      Except.error "Series A and B must be the same length"
    else
      let element_count := series_A.length
      let nonnull_count := mask.count false
      let pairs := series_A.zip series_B
      let nonnull_pairs := masked_out pairs mask
      let success_vals :=
        nonnull_pairs.map (fun p => pred p.1.2 p.2.2)
      let success_count := success_vals.count true
      let unexpected := nonnull_pairs.filter (fun p => !pred p.1.2 p.2.2)
      let unexpected_list := unexpected.map (fun p => (p.1.2, p.2.2))
      let unexpected_index_list := unexpected.map (fun p => p.1.1)
      let sp := calc_map_expectation_success success_count nonnull_count mostly
      Except.ok (format_map_output result_format sp.1 element_count
        nonnull_count unexpected_list.length unexpected_list
        unexpected_index_list)

/-- The `ignore_row_if` dispatch of `multicolumn_map_expectation` (source
lines 316-323) over the rows restricted to the target columns. -/
def multicolumn_skip_mask (ignore_row_if : String)
    (test_rows : List (Nat × List Value)) : Except String (List Bool) :=
  if ignore_row_if = "all_values_are_missing" then
    Except.ok (test_rows.map (fun r => r.2.all Value.isNull))
  else if ignore_row_if = "any_value_is_missing" then
    Except.ok (test_rows.map (fun r => r.2.any Value.isNull))
  else if ignore_row_if = "never" then
    Except.ok (test_rows.map (fun _ => false))
  else
    Except.error "Unknown value of ignore_row_if"

/-- The `multicolumn_map_expectation` decorator wrapper (source lines
294-352). As in the pair wrapper, `conditionParser` is never validated. -/
def multicolumn_map_expectation (pred : List Value → Bool)
    (df : DataFrame) (column_list : List Nat) (mostly : Option ℚ)
    (ignore_row_if : String) (level : Level)
    (row_condition : Option (Row → Bool)) (conditionParser : Option String) :
    Except String (MapReturn (List Value)) :=
  let _ := conditionParser
  let result_format := parse_result_format level
  let data :=
    match row_condition with
    | some cond => (df.query cond).reset_index
    | none => df
  let test_df := (data.idx.zip data.rows).map
    (fun p => (p.1, p.2.select column_list))
  match multicolumn_skip_mask ignore_row_if test_df with
  | Except.error e => Except.error e
  | Except.ok mask =>
    let nonskipped := masked_out test_df mask
    let success_vals := nonskipped.map (fun p => pred p.2)
    let success_count := success_vals.count true
    let nonnull_count := mask.count false
    let element_count := test_df.length
    let unexpected := nonskipped.filter (fun p => !pred p.2)
    let unexpected_list := unexpected.map Prod.snd
    let unexpected_index_list := unexpected.map Prod.fst
    let sp := calc_map_expectation_success success_count nonnull_count mostly
    Except.ok (format_map_output result_format sp.1 element_count
      nonnull_count unexpected_list.length unexpected_list
      unexpected_index_list)

/-- The declared dtype of a pandas column: its string name (`str(dtype)`,
`"object"` for open typing) and the `__name__` of its scalar type
(`dtype.type.__name__`, e.g. `"int64"`, `"object_"`). -/
structure Dtype where
  name : String
  typeTag : String
  deriving DecidableEq, Repr

/-- The numpy/pandas type-lookup collaborators of the type resolution code:
`np.dtype(t).type` (none models the TypeError branch), `getattr(pd, t)` and
`getattr(pd.core.dtypes.dtypes, t)` (none models AttributeError or a
non-type attribute). Each successful lookup is named by the resulting python
type's name. -/
structure TypeOracle where
  np : String → Option String
  pd : String → Option String
  pdCore : String → Option String

/-- `str.lower()` on the ASCII type names the type checks receive. -/
def str_lower (s : String) : String := String.mk (s.data.map Char.toLower)

/-- `_native_type_type_map` (source lines 982-1003): the fixed fallback from
a python-native type name to concrete comparable types. -/
def native_type_type_map (type_ : String) : Option (List String) :=
  let t := str_lower type_
  if t = "none" then some ["NoneType"]
  else if t = "bool" then some ["bool"]
  else if t = "int" ∨ t = "long" then some ["int"]
  else if t = "float" then some ["float"]
  else if t = "bytes" then some ["bytes"]
  else if t = "complex" then some ["complex"]
  else if t = "str" ∨ t = "string_types" then some ["str"]
  else if t = "list" then some ["list"]
  else if t = "dict" then some ["dict"]
  else none

/-- The `comp_types` accumulation shared by the four type-check bodies: the
numpy dtype lookup, on its TypeError the two pandas attribute lookups, and
then always the native-type fallback. -/
def resolve_comp_types (o : TypeOracle) (type_ : String) : List String :=
  (match o.np type_ with
   | some t => [t]
   | none => (o.pd type_).toList ++ (o.pdCore type_).toList)
  ++ ((native_type_type_map type_).getD [])

/-- `comp_types` accumulated over a whole type list (the `for type_ in
type_list` loops of the in-type-list bodies). -/
def resolve_comp_types_list (o : TypeOracle) (type_list : List String) :
    List String :=
  (type_list.map (resolve_comp_types o)).flatten

/-- The return object of an aggregate-path type check: `success` plus the
declared type name as `observed_value`. -/
structure AggReturn where
  success : Bool
  observed_value : String
  deriving DecidableEq, Repr

/-- The diagnostic raised when `mostly` reaches an aggregate type check. -/
def mostly_aggregate_error : String :=
  "PandasExecutionEngine cannot support mostly for a column with a non-object dtype."

/-- `_expect_column_values_to_be_of_type__aggregate` (source lines 933-979):
rejects `mostly`, then compares the column's declared scalar type against
the resolved comparable types (trivially succeeding on an absent
constraint), reading only the dtype and never the rows. -/
def of_type_aggregate (o : TypeOracle) (dt : Dtype) (type_ : Option String)
    (mostly : Option ℚ) : Except String AggReturn :=
  if mostly ≠ none then Except.error mostly_aggregate_error
  else
    let success :=
      match type_ with
      | none => true
      | some t => (resolve_comp_types o t).contains dt.typeTag
    Except.ok { success := success, observed_value := dt.typeTag }

/-- `_expect_column_values_to_be_in_type_list__aggregate` (source lines
1158-1206). -/
def in_type_list_aggregate (o : TypeOracle) (dt : Dtype)
    (type_list : Option (List String)) (mostly : Option ℚ) :
    Except String AggReturn :=
  if mostly ≠ none then Except.error mostly_aggregate_error
  else
    let success :=
      match type_list with
      | none => true
      | some ts => (resolve_comp_types_list o ts).contains dt.typeTag
    Except.ok { success := success, observed_value := dt.typeTag }

/-- The body of `_expect_column_values_to_be_of_type__map` (source lines
1006-1044): resolve the comparable types, raise if none resolved, else test
each value by `isinstance`. -/
def of_type_map_func (o : TypeOracle) (type_ : String) :
    Except String (Value → Bool) :=
  let comp_types := resolve_comp_types o type_
  if comp_types.length < 1 then
    Except.error ("Unrecognized numpy/python type: " ++ type_)
  else
    Except.ok (fun v => py_isinstance v comp_types)

/-- The body of `_expect_column_values_to_be_in_type_list__map` (source
lines 1209-1248). -/
def in_type_list_map_func (o : TypeOracle) (type_list : List String) :
    Except String (Value → Bool) :=
  let comp_types := resolve_comp_types_list o type_list
  if comp_types.length < 1 then
    Except.error "No recognized numpy/python type in list"
  else
    Except.ok (fun v => py_isinstance v comp_types)

/-- `_expect_column_values_to_be_of_type__map` through the column-map
wrapper. -/
def of_type_map (o : TypeOracle) (df : DataFrame) (c : Nat) (type_ : String)
    (mostly : Option ℚ) (level : Level) (row_condition : Option (Row → Bool))
    (conditionParser : Option String) : Except String (MapReturn Value) :=
  column_map_expectation "_expect_column_values_to_be_of_type__map"
    (of_type_map_func o type_) df c mostly level row_condition
    conditionParser

/-- `_expect_column_values_to_be_in_type_list__map` through the column-map
wrapper. -/
def in_type_list_map (o : TypeOracle) (df : DataFrame) (c : Nat)
    (type_list : List String) (mostly : Option ℚ) (level : Level)
    (row_condition : Option (Row → Bool)) (conditionParser : Option String) :
    Except String (MapReturn Value) :=
  column_map_expectation "_expect_column_values_to_be_in_type_list__map"
    (in_type_list_map_func o type_list) df c mostly level row_condition
    conditionParser

/-- One persisted assertion record. The suite identity of a record is its
(expectation kind, target column) pair; `kwargs` and `meta` carry the
remaining parameter and metadata payload opaquely. -/
structure ExpectationConfiguration where
  expectation_type : String
  column : String
  kwargs : List (String × String)
  meta : List (String × String)
  success_on_last_run : Option Bool
  deriving DecidableEq, Repr

/-- The persisted suite: an ordered collection of assertion records. -/
abbrev Suite := List ExpectationConfiguration

/-- Whether a record matches a (kind, target column) identity. -/
def expectation_matches (e : ExpectationConfiguration) (ty col : String) :
    Bool :=
  e.expectation_type == ty && e.column == col

/-- Modelled from the spec: `ExpectationSuite.find_expectation_indexes`
(outside the embedded module) returns the positions of the records matching
the probe's (kind, target column) identity. -/
def find_expectation_indexes : Suite → String → String → List Nat
  | [], _, _ => []
  | e :: rest, ty, col =>
    let tail := (find_expectation_indexes rest ty col).map (fun i => i + 1)
    if expectation_matches e ty col then 0 :: tail else tail

/-- Modelled from the spec: the expectation decorator (outside the embedded
module) records the just-evaluated configuration in the persisted suite,
replacing any previous record with the same (kind, column) identity, with
`success_on_last_run` stamped from the fresh result. -/
def append_expectation (suite : Suite) (cfg : ExpectationConfiguration) :
    Suite :=
  suite.filter
    (fun e => !(expectation_matches e cfg.expectation_type cfg.column))
    ++ [cfg]

/-- The suite normalization shared by both type-routed expectations (source
lines 862-928 and 1086-1153): record the routed evaluation, pop a
pre-existing public record when exactly one exists, locate the routed record
(asserting it is unique) and relabel it in place to the public kind, keeping
its kwargs, meta and success-on-last-run. -/
def routed_bookkeeping (suite : Suite) (routedName pubName colName : String)
    (kw meta : List (String × String)) (succ : Bool) : Except String Suite :=
  let suite1 := append_expectation suite
    { expectation_type := routedName, column := colName, kwargs := kw
      meta := meta, success_on_last_run := some succ }
  let existing := find_expectation_indexes suite1 pubName colName
  let suite2 :=
    if existing.length = 1 then suite1.eraseIdx (existing.getD 0 0)
    else suite1
  let news := find_expectation_indexes suite2 routedName colName
  if news.length = 1 then
    match suite2.get? (news.getD 0 0) with
    | some old_config =>
      Except.ok (suite2.set (news.getD 0 0)
        { expectation_type := pubName, column := old_config.column
          kwargs := old_config.kwargs, meta := old_config.meta
          success_on_last_run := old_config.success_on_last_run })
    | none => Except.error "IndexError"
  else Except.error "AssertionError: len(new_expectations) == 1"

/-- The engine state the type-routed expectations read and write: the
persisted suite and the active-validation flag. -/
structure EngineState where
  suite : Suite
  active_validation : Bool
  deriving DecidableEq, Repr

/-- A type-routed evaluation result: aggregate-shaped or map-shaped. -/
inductive TypeCheckResult where
  | agg (r : AggReturn)
  | map (r : MapReturn Value)
  deriving DecidableEq, Repr

/-- The routing test of `expect_column_values_to_be_of_type` (source lines
851-855): aggregate semantics when the dtype is closed, the constraint is
absent, or the constraint is one of the degenerate object names. -/
def of_type_route_condition (dt : Dtype) (type_ : Option String) : Bool :=
  dt.name != "object" || type_ == none
    || (type_ == some "object" || type_ == some "object_" || type_ == some "O")

/-- The routing test of `expect_column_values_to_be_in_type_list` (source
line 1079). -/
def in_type_list_route_condition (dt : Dtype)
    (type_list : Option (List String)) : Bool :=
  dt.name != "object" || type_list == none

/-- `expect_column_values_to_be_of_type` (source lines 819-930): route to
the aggregate or map path on the dtype, then normalize the persisted suite
unless this is an active-validation probe. `colName` is the target column's
name (its suite identity); `c` its position in the rows; `dt` its declared
dtype; `kw`/`meta` the recorded parameter and metadata payload. -/
def expect_column_values_to_be_of_type (o : TypeOracle) (st : EngineState)
    (df : DataFrame) (colName : String) (c : Nat) (dt : Dtype)
    (type_ : Option String) (mostly : Option ℚ) (level : Level)
    (row_condition : Option (Row → Bool)) (conditionParser : Option String)
    (kw meta : List (String × String)) :
    Except String (EngineState × TypeCheckResult) :=
  if of_type_route_condition dt type_ then
    match of_type_aggregate o dt type_ mostly with
    | Except.error e => Except.error e
    | Except.ok res =>
      if st.active_validation then Except.ok (st, TypeCheckResult.agg res)
      else
        match routed_bookkeeping st.suite
          "_expect_column_values_to_be_of_type__aggregate"
          "expect_column_values_to_be_of_type" colName kw meta res.success with
        | Except.error e => Except.error e
        | Except.ok s' =>
          Except.ok ({ st with suite := s' }, TypeCheckResult.agg res)
  else
    -- the route condition being false forces the constraint to be present
    match of_type_map o df c (type_.getD "") mostly level row_condition
      conditionParser with
    | Except.error e => Except.error e
    | Except.ok res =>
      if st.active_validation then Except.ok (st, TypeCheckResult.map res)
      else
        match routed_bookkeeping st.suite
          "_expect_column_values_to_be_of_type__map"
          "expect_column_values_to_be_of_type" colName kw meta res.success with
        | Except.error e => Except.error e
        | Except.ok s' =>
          Except.ok ({ st with suite := s' }, TypeCheckResult.map res)

/-- `expect_column_values_to_be_in_type_list` (source lines 1047-1155). -/
def expect_column_values_to_be_in_type_list (o : TypeOracle)
    (st : EngineState) (df : DataFrame) (colName : String) (c : Nat)
    (dt : Dtype) (type_list : Option (List String)) (mostly : Option ℚ)
    (level : Level) (row_condition : Option (Row → Bool))
    (conditionParser : Option String) (kw meta : List (String × String)) :
    Except String (EngineState × TypeCheckResult) :=
  if in_type_list_route_condition dt type_list then
    match in_type_list_aggregate o dt type_list mostly with
    | Except.error e => Except.error e
    | Except.ok res =>
      if st.active_validation then Except.ok (st, TypeCheckResult.agg res)
      else
        match routed_bookkeeping st.suite
          "_expect_column_values_to_be_in_type_list__aggregate"
          "expect_column_values_to_be_in_type_list" colName kw meta
          res.success with
        | Except.error e => Except.error e
        | Except.ok s' =>
          Except.ok ({ st with suite := s' }, TypeCheckResult.agg res)
  else
    match in_type_list_map o df c (type_list.getD []) mostly level
      row_condition conditionParser with
    | Except.error e => Except.error e
    | Except.ok res =>
      if st.active_validation then Except.ok (st, TypeCheckResult.map res)
      else
        match routed_bookkeeping st.suite
          "_expect_column_values_to_be_in_type_list__map"
          "expect_column_values_to_be_in_type_list" colName kw meta
          res.success with
        | Except.error e => Except.error e
        | Except.ok s' =>
          Except.ok ({ st with suite := s' }, TypeCheckResult.map res)

/-- The success flag of either shape of type-routed result. -/
def TypeCheckResult.success : TypeCheckResult → Bool
  | TypeCheckResult.agg r => r.success
  | TypeCheckResult.map r => r.success

/-- An oracle on which every numpy/pandas type lookup fails. -/
def trivial_oracle : TypeOracle :=
  { np := fun _ => none, pd := fun _ => none, pdCore := fun _ => none }

/-- Whether a call returned a result rather than raising. -/
def is_ok {ε α : Type} : Except ε α → Bool
  | Except.ok _ => true
  | Except.error _ => false

instance {ε α : Type} [DecidableEq ε] [DecidableEq α] :
    DecidableEq (Except ε α) :=
  fun x y =>
    match x, y with
    | Except.ok a, Except.ok b =>
        if h : a = b then isTrue (by rw [h])
        else isFalse (fun hc => h (Except.ok.inj hc))
    | Except.error a, Except.error b =>
        if h : a = b then isTrue (by rw [h])
        else isFalse (fun hc => h (Except.error.inj hc))
    | Except.ok _, Except.error _ => isFalse (fun hc => Except.noConfusion hc)
    | Except.error _, Except.ok _ => isFalse (fun hc => Except.noConfusion hc)

/-- C1: the shared success-threshold computation that every map-style
wrapper (column-map, column-pair-map, multicolumn-map) applies to its
(success_count, evaluated_count, mostly) triple: zero evaluated rows give
vacuous success, an unset `mostly` demands all evaluated rows succeed, and a
set `mostly` with a positive evaluated count demands the success ratio reach
`mostly`. -/
theorem c1_map_success_threshold (success_count nonnull_count : Nat)
    (mostly : Option ℚ) (m : ℚ) (h : success_count ≤ nonnull_count) :
    (nonnull_count = 0 →
      (calc_map_expectation_success success_count nonnull_count mostly).1
        = true)
    ∧ (mostly = none →
        ((calc_map_expectation_success success_count nonnull_count
            mostly).1 = true
          ↔ success_count = nonnull_count))
    ∧ (mostly = some m → 0 < nonnull_count →
        ((calc_map_expectation_success success_count nonnull_count
            mostly).1 = true
          ↔ m ≤ (success_count : ℚ) / (nonnull_count : ℚ))) := by
  unfold calc_map_expectation_success
  refine ⟨?_, ?_, ?_⟩
  · intro h0
    simp [h0]
  · rintro rfl
    by_cases hn : 0 < nonnull_count
    · simp [hn]
    · have h0 : nonnull_count = 0 := by omega
      subst h0
      simpa using by omega
  · rintro rfl hn
    simp [hn]

/-- C1 witness: a concrete (1, 2, mostly=1/2) instance. -/
theorem c1_map_success_threshold_witness :
    ((2 : Nat) = 0 →
      (calc_map_expectation_success 1 2 (some (1/2))).1 = true)
    ∧ (some (1/2 : ℚ) = none →
        ((calc_map_expectation_success 1 2 (some (1/2))).1 = true
          ↔ (1 : Nat) = 2))
    ∧ (some (1/2 : ℚ) = some (1/2 : ℚ) → 0 < (2 : Nat) →
        ((calc_map_expectation_success 1 2 (some (1/2))).1 = true
          ↔ (1/2 : ℚ) ≤ ((1 : Nat) : ℚ) / ((2 : Nat) : ℚ))) :=
  c1_map_success_threshold 1 2 (some (1/2)) (1/2) (by norm_num)

/-- C5: both aggregate-path type checks reject a supplied `mostly` with the
configuration error, and with `mostly` unset they always return a result. -/
theorem c5_aggregate_mostly_rejected (o : TypeOracle) (dt : Dtype)
    (type_ : Option String) (type_list : Option (List String)) (m : ℚ) :
    of_type_aggregate o dt type_ (some m)
      = Except.error mostly_aggregate_error
    ∧ in_type_list_aggregate o dt type_list (some m)
      = Except.error mostly_aggregate_error
    ∧ (∃ r, of_type_aggregate o dt type_ none = Except.ok r)
    ∧ (∃ r, in_type_list_aggregate o dt type_list none = Except.ok r) := by
  exact ⟨by simp [of_type_aggregate], by simp [in_type_list_aggregate],
    ⟨_, rfl⟩, ⟨_, rfl⟩⟩

/-- C5 witness: the concrete rejection and acceptance on an int64 column. -/
theorem c5_aggregate_mostly_rejected_witness :
    of_type_aggregate trivial_oracle ⟨"int64", "int64"⟩ (some "int") (some 1)
      = Except.error mostly_aggregate_error
    ∧ in_type_list_aggregate trivial_oracle ⟨"int64", "int64"⟩
        (some ["int"]) (some 1)
      = Except.error mostly_aggregate_error
    ∧ (∃ r, of_type_aggregate trivial_oracle ⟨"int64", "int64"⟩
        (some "int") none = Except.ok r)
    ∧ (∃ r, in_type_list_aggregate trivial_oracle ⟨"int64", "int64"⟩
        (some ["int"]) none = Except.ok r) :=
  c5_aggregate_mostly_rejected trivial_oracle ⟨"int64", "int64"⟩
    (some "int") (some ["int"]) 1

/-- A constantly-true boolean column has as many `True` entries as rows. -/
theorem count_true_const {β : Type} (l : List β) :
    ((l.map fun _ => true).count true) = l.length := by
  induction l with
  | nil => rfl
  | cons a t ih => simp [List.count_cons, ih]

/-- The shared threshold computation at full success: with every evaluated
row succeeding and `mostly` absent or a fraction at most 1, success holds. -/
theorem calc_full_success (n : Nat) (mostly : Option ℚ) (m : ℚ)
    (hm : mostly = none ∨ (mostly = some m ∧ m ≤ 1)) :
    (calc_map_expectation_success n n mostly).1 = true := by
  unfold calc_map_expectation_success
  by_cases hn : 0 < n
  · rcases hm with rfl | ⟨rfl, hle⟩
    · simp [hn]
    · have hne : (n : ℚ) ≠ 0 := by exact_mod_cast Nat.pos_iff_ne_zero.mp hn
      simp [hn, div_self hne, hle]
  · simp [hn]

/-- The formatter passes `success` through unchanged, and whenever the
`"result"` sub-dictionary is present it carries the exact unexpected count
and the missing count, and the missing-percent and nonmissing-relative
fields are present. -/
theorem format_map_output_spec {α : Type} [DecidableEq α]
    (rf : ResultFormat) (success : Bool) (ec nc uc : Nat) (ul : List α)
    (uil : List Nat) :
    (format_map_output rf success ec nc uc ul uil).success = success
    ∧ (∀ fields, (format_map_output rf success ec nc uc ul uil).result
        = some fields →
        fields.unexpected_count = some uc
        ∧ fields.missing_count = some (ec - nc)
        ∧ fields.missing_percent.isSome = true
        ∧ fields.unexpected_percent_nonmissing.isSome = true)
    ∧ ((format_map_output rf success ec nc uc ul uil).result = none
        ↔ rf.result_format = Level.boolean_only) := by
  unfold format_map_output
  rcases hL : rf.result_format <;> simp [hL]

/-- C10: with `value_set = None` the in-set check marks every non-ignored
value expected, so the evaluation returns a result with success true and a
zero unexpected count on any dataframe (for any unset `mostly`, or any
`mostly` that is a fraction at most 1, and any valid row-filter setup). -/
theorem c10_in_set_none_vacuous (df : DataFrame) (c : Nat)
    (mostly : Option ℚ) (m : ℚ) (level : Level)
    (rc : Option (Row → Bool)) (cp : Option String)
    (hmostly : mostly = none ∨ (mostly = some m ∧ m ≤ 1))
    (hrc : rc = none ∨ cp = some "python" ∨ cp = some "pandas") :
    ∃ r, expect_column_values_to_be_in_set none df c mostly level rc cp
        = Except.ok r
      ∧ r.success = true
      ∧ (∀ fields, r.result = some fields →
          fields.unexpected_count = some 0) := by
  unfold expect_column_values_to_be_in_set column_map_expectation
  have hdata : ∃ data : DataFrame,
      (match rc with
        | some cond =>
            if cp = some "python" ∨ cp = some "pandas"
            then Except.ok ((df.query cond).reset_index)
            else Except.error
              "conditionParser is required when setting a row_condition, and must be python or pandas"
        | none => Except.ok df)
        = Except.ok data := by
    rcases hrc with rfl | hcp
    · exact ⟨df, rfl⟩
    · cases rc with
      | none => exact ⟨df, rfl⟩
      | some cond => exact ⟨(df.query cond).reset_index, by simp [hcp]⟩
  obtain ⟨data, hdata⟩ := hdata
  rw [hdata]
  simp only [in_set_func]
  unfold column_map_expectation_core
  have hname : ¬ ("expect_column_values_to_be_in_set" ∈ null_check_names) := by
    simp [null_check_names]
  simp only [if_neg hname]
  simp only [column_map_unexpected, Bool.not_true, List.filter_false]
  refine ⟨_, rfl, ?_, ?_⟩
  · rw [(format_map_output_spec (α := Value) _ _ _ _ _ _ _).1,
      count_true_const]
    exact calc_full_success _ mostly m hmostly
  · intro fields h
    have := ((format_map_output_spec (α := Value)
      (parse_result_format level) _ _ _ _ _ _).2.1 fields h).1
    simpa using this

/-- C10 witness: a concrete two-row column, one null, `value_set = None`. -/
theorem c10_in_set_none_vacuous_witness :
    ∃ r, expect_column_values_to_be_in_set none
        ⟨[0, 1], [[Value.int 1], [Value.null]]⟩ 0 none Level.summary none
        none = Except.ok r
      ∧ r.success = true
      ∧ (∀ fields, r.result = some fields →
          fields.unexpected_count = some 0) :=
  c10_in_set_none_vacuous ⟨[0, 1], [[Value.int 1], [Value.null]]⟩ 0 none 0
    Level.summary none none (Or.inl rfl) (Or.inl rfl)

/-- A successful aggregate type check always reports the declared scalar
type name as `observed_value`, and only happens with `mostly` unset. -/
theorem of_type_aggregate_ok (o : TypeOracle) (dt : Dtype)
    (type_ : Option String) (mostly : Option ℚ) (res : AggReturn)
    (h : of_type_aggregate o dt type_ mostly = Except.ok res) :
    res.observed_value = dt.typeTag := by
  unfold of_type_aggregate at h
  split at h
  · exact absurd h (by simp)
  · cases h
    rfl

/-- C4: the of-type assertion takes the aggregate path exactly when the
column dtype is closed, the constraint is absent, or the constraint is a
degenerate object name; the aggregate result reports the declared scalar
type name as `observed_value`; and on the aggregate path the outcome is
independent of the dataframe contents, the column position and the row
filter (no per-row scan). -/
theorem c4_of_type_routing (o : TypeOracle) (st : EngineState)
    (df df' : DataFrame) (colName : String) (c c' : Nat) (dt : Dtype)
    (type_ : Option String) (mostly : Option ℚ) (level : Level)
    (rc rc' : Option (Row → Bool)) (cp cp' : Option String)
    (kw meta : List (String × String)) :
    (of_type_route_condition dt type_ = true →
      (∀ st' r, expect_column_values_to_be_of_type o st df colName c dt
          type_ mostly level rc cp kw meta = Except.ok (st', r) →
        ∃ a, r = TypeCheckResult.agg a ∧ a.observed_value = dt.typeTag)
      ∧ expect_column_values_to_be_of_type o st df colName c dt type_
          mostly level rc cp kw meta
        = expect_column_values_to_be_of_type o st df' colName c' dt type_
            mostly level rc' cp' kw meta)
    ∧ (of_type_route_condition dt type_ = false →
      ∀ st' r, expect_column_values_to_be_of_type o st df colName c dt
          type_ mostly level rc cp kw meta = Except.ok (st', r) →
        ∃ mr, r = TypeCheckResult.map mr) := by
  constructor
  · intro hcond
    constructor
    · intro st' r hcall
      simp only [expect_column_values_to_be_of_type, hcond, if_true] at hcall
      rcases hA : of_type_aggregate o dt type_ mostly with e | res <;>
        rw [hA] at hcall
      · exact absurd hcall (by simp)
      · by_cases hav : st.active_validation = true
        · simp only [hav, if_true] at hcall
          cases hcall
          exact ⟨res, rfl, of_type_aggregate_ok o dt type_ mostly res hA⟩
        · simp only [Bool.not_eq_true] at hav
          simp only [hav, Bool.false_eq_true, if_false] at hcall
          rcases hB : routed_bookkeeping st.suite
              "_expect_column_values_to_be_of_type__aggregate"
              "expect_column_values_to_be_of_type" colName kw meta
              res.success with e | s' <;> rw [hB] at hcall
          · exact absurd hcall (by simp)
          · cases hcall
            exact ⟨res, rfl, of_type_aggregate_ok o dt type_ mostly res hA⟩
    · simp only [expect_column_values_to_be_of_type, hcond, if_true]
  · intro hcond st' r hcall
    simp only [expect_column_values_to_be_of_type, hcond, Bool.false_eq_true,
      if_false] at hcall
    rcases hA : of_type_map o df c (type_.getD "") mostly level rc cp
      with e | res <;> rw [hA] at hcall
    · exact absurd hcall (by simp)
    · by_cases hav : st.active_validation = true
      · simp only [hav, if_true] at hcall
        cases hcall
        exact ⟨res, rfl⟩
      · simp only [Bool.not_eq_true] at hav
        simp only [hav, Bool.false_eq_true, if_false] at hcall
        rcases hB : routed_bookkeeping st.suite
            "_expect_column_values_to_be_of_type__map"
            "expect_column_values_to_be_of_type" colName kw meta
            res.success with e | s' <;> rw [hB] at hcall
        · exact absurd hcall (by simp)
        · cases hcall
          exact ⟨res, rfl⟩

/-- C4 witness: a closed int64 column routed to the aggregate path and a
closed object column routed to the map path. -/
theorem c4_of_type_routing_witness :
    ((of_type_route_condition ⟨"int64", "int64"⟩ (some "int") = true →
      (∀ st' r, expect_column_values_to_be_of_type trivial_oracle
          ⟨[], true⟩ ⟨[], []⟩ "a" 0 ⟨"int64", "int64"⟩ (some "int") none
          Level.basic none none [] [] = Except.ok (st', r) →
        ∃ a, r = TypeCheckResult.agg a ∧ a.observed_value = "int64")
      ∧ expect_column_values_to_be_of_type trivial_oracle ⟨[], true⟩
          ⟨[], []⟩ "a" 0 ⟨"int64", "int64"⟩ (some "int") none Level.basic
          none none [] []
        = expect_column_values_to_be_of_type trivial_oracle ⟨[], true⟩
            ⟨[0], [[Value.str "x"]]⟩ "a" 1 ⟨"int64", "int64"⟩ (some "int")
            none Level.basic none none [] [])
    ∧ (of_type_route_condition ⟨"int64", "int64"⟩ (some "int") = false →
      ∀ st' r, expect_column_values_to_be_of_type trivial_oracle ⟨[], true⟩
          ⟨[], []⟩ "a" 0 ⟨"int64", "int64"⟩ (some "int") none Level.basic
          none none [] [] = Except.ok (st', r) →
        ∃ mr, r = TypeCheckResult.map mr))
    ∧ of_type_route_condition ⟨"int64", "int64"⟩ (some "int") = true
    ∧ of_type_route_condition ⟨"object", "object_"⟩ (some "int") = false :=
  ⟨c4_of_type_routing trivial_oracle ⟨[], true⟩ ⟨[], []⟩
      ⟨[0], [[Value.str "x"]]⟩ "a" 0 1 ⟨"int64", "int64"⟩ (some "int") none
      Level.basic none none none none [] [],
    by decide, by decide⟩

/-- Looking up a position in a pointwise combination of two series reads the
combination of the two entries at that position. -/
theorem zipWith_get?_some {α β γ : Type} (f : α → β → γ) :
    ∀ (l₁ : List α) (l₂ : List β) (i : Nat) (a : α) (b : β),
      l₁.get? i = some a → l₂.get? i = some b →
      (List.zipWith f l₁ l₂).get? i = some (f a b) := by
  intro l₁
  induction l₁ with
  | nil => intro l₂ i a b ha hb; simp at ha
  | cons x xs ih =>
    intro l₂ i a b ha hb
    cases l₂ with
    | nil => simp at hb
    | cons y ys =>
      cases i with
      | zero =>
        simp only [List.get?] at ha hb
        cases ha; cases hb
        rfl
      | succ j =>
        simp only [List.get?] at ha hb ⊢
        exact ih ys j a b ha hb

/-- C6: an unrecognized `ignore_row_if` makes the pair and multicolumn
wrappers fail with the configuration error without consulting the predicate
(the outcome is the same for any two predicates); and the recognized
column-pair policies ignore a row exactly when both values are null
(`both_values_are_missing`, the default), when at least one is null
(`either_value_is_missing`), and never (`never`). -/
theorem c6_ignore_row_if_policies (ign ignm : String)
    (pred2 pred2' : Value → Value → Bool)
    (predm predm' : List Value → Bool) (df : DataFrame) (cA cB : Nat)
    (cols : List Nat) (mostly : Option ℚ) (level : Level)
    (rc : Option (Row → Bool)) (cp : Option String)
    (A B : List (Nat × Value)) (i : Nat) (a b : Nat × Value)
    (hign : ¬ (ign = "both_values_are_missing"
      ∨ ign = "either_value_is_missing" ∨ ign = "never"))
    (hignm : ¬ (ignm = "all_values_are_missing"
      ∨ ignm = "any_value_is_missing" ∨ ignm = "never"))
    (ha : A.get? i = some a) (hb : B.get? i = some b) :
    (column_pair_map_expectation pred2 df cA cB mostly ign level rc cp
       = Except.error "Unknown value of ignore_row_if"
     ∧ column_pair_map_expectation pred2 df cA cB mostly ign level rc cp
       = column_pair_map_expectation pred2' df cA cB mostly ign level rc cp)
    ∧ (multicolumn_map_expectation predm df cols mostly ignm level rc cp
       = Except.error "Unknown value of ignore_row_if"
     ∧ multicolumn_map_expectation predm df cols mostly ignm level rc cp
       = multicolumn_map_expectation predm' df cols mostly ignm level rc cp)
    ∧ (∃ mask, pair_null_mask "both_values_are_missing" A B
        = Except.ok mask ∧ mask.get? i = some (a.2.isNull && b.2.isNull))
    ∧ (∃ mask, pair_null_mask "either_value_is_missing" A B
        = Except.ok mask ∧ mask.get? i = some (a.2.isNull || b.2.isNull))
    ∧ (∃ mask, pair_null_mask "never" A B = Except.ok mask
        ∧ mask.get? i = some false)
    ∧ pair_default_ignore_row_if = "both_values_are_missing" := by
  push_neg at hign hignm
  obtain ⟨h1, h2, h3⟩ := hign
  obtain ⟨g1, g2, g3⟩ := hignm
  refine ⟨⟨?_, ?_⟩, ⟨?_, ?_⟩, ?_, ?_, ?_, rfl⟩
  · simp [column_pair_map_expectation, pair_null_mask, h1, h2, h3]
  · simp [column_pair_map_expectation, pair_null_mask, h1, h2, h3]
  · simp [multicolumn_map_expectation, multicolumn_skip_mask, g1, g2, g3]
  · simp [multicolumn_map_expectation, multicolumn_skip_mask, g1, g2, g3]
  · exact ⟨List.zipWith (fun x y => x.2.isNull && y.2.isNull) A B,
      by simp [pair_null_mask], zipWith_get?_some _ A B i a b ha hb⟩
  · exact ⟨List.zipWith (fun x y => x.2.isNull || y.2.isNull) A B,
      by simp [pair_null_mask], zipWith_get?_some _ A B i a b ha hb⟩
  · refine ⟨A.map (fun _ => false), by simp [pair_null_mask], ?_⟩
    have hi : i < A.length := by
      rcases List.get?_eq_some.mp ha with ⟨h, _⟩
      exact h
    simp [List.getElem?_map, List.get?_eq_getElem?, hi]

/-- C6 witness: a concrete unrecognized policy string and a concrete
one-row pair of series. -/
theorem c6_ignore_row_if_policies_witness :
    (column_pair_map_expectation (fun _ _ => true)
        ⟨[0], [[Value.null, Value.int 1]]⟩ 0 1 none "sometimes" Level.basic
        none none
       = Except.error "Unknown value of ignore_row_if"
     ∧ column_pair_map_expectation (fun _ _ => true)
         ⟨[0], [[Value.null, Value.int 1]]⟩ 0 1 none "sometimes" Level.basic
         none none
       = column_pair_map_expectation (fun _ _ => false)
           ⟨[0], [[Value.null, Value.int 1]]⟩ 0 1 none "sometimes"
           Level.basic none none)
    ∧ (multicolumn_map_expectation (fun _ => true)
        ⟨[0], [[Value.null, Value.int 1]]⟩ [0, 1] none "sometimes"
        Level.basic none none
       = Except.error "Unknown value of ignore_row_if"
     ∧ multicolumn_map_expectation (fun _ => true)
         ⟨[0], [[Value.null, Value.int 1]]⟩ [0, 1] none "sometimes"
         Level.basic none none
       = multicolumn_map_expectation (fun _ => false)
           ⟨[0], [[Value.null, Value.int 1]]⟩ [0, 1] none "sometimes"
           Level.basic none none)
    ∧ (∃ mask, pair_null_mask "both_values_are_missing"
        [(0, Value.null)] [(0, Value.int 1)] = Except.ok mask
        ∧ mask.get? 0
          = some ((0, Value.null).2.isNull && (0, Value.int 1).2.isNull))
    ∧ (∃ mask, pair_null_mask "either_value_is_missing"
        [(0, Value.null)] [(0, Value.int 1)] = Except.ok mask
        ∧ mask.get? 0
          = some ((0, Value.null).2.isNull || (0, Value.int 1).2.isNull))
    ∧ (∃ mask, pair_null_mask "never"
        [(0, Value.null)] [(0, Value.int 1)] = Except.ok mask
        ∧ mask.get? 0 = some false)
    ∧ pair_default_ignore_row_if = "both_values_are_missing" :=
  c6_ignore_row_if_policies "sometimes" "sometimes" (fun _ _ => true)
    (fun _ _ => false) (fun _ => true) (fun _ => false)
    ⟨[0], [[Value.null, Value.int 1]]⟩ 0 1 [0, 1] none Level.basic none none
    [(0, Value.null)] [(0, Value.int 1)] 0 (0, Value.null) (0, Value.int 1)
    (by decide) (by decide) rfl rfl

/-- C7 counterexample: a column-pair evaluation with a row filter supplied
and no `conditionParser` at all returns a result instead of failing: the
pair and multicolumn wrappers never validate the parser. -/
theorem c7_counterexample :
    is_ok (column_pair_map_expectation (fun x _ => x.isNull)
      ⟨[0, 1], [[Value.int 1], [Value.int 2]]⟩ 0 0 none
      "both_values_are_missing" Level.basic (some (fun _ => true)) none)
      = true := by
  rfl

/-- C7 as amended: only the column-map wrapper validates `conditionParser`
when a row filter is supplied (failing with the configuration error for a
missing or invalid parser); the column-pair and multicolumn wrappers ignore
the parser argument entirely and evaluate the filter, returning a result. -/
theorem c7_parser_check_amended (funcName : String)
    (funcE : Except String (Value → Bool))
    (pred2 : Value → Value → Bool) (predm : List Value → Bool)
    (df : DataFrame) (c cA cB : Nat) (cols : List Nat) (mostly : Option ℚ)
    (ign ignm : String) (level : Level) (cond : Row → Bool)
    (cp cp₁ cp₂ : Option String)
    (hcp : ¬ (cp = some "python" ∨ cp = some "pandas"))
    (hign : ign = "both_values_are_missing"
      ∨ ign = "either_value_is_missing" ∨ ign = "never")
    (hignm : ignm = "all_values_are_missing"
      ∨ ignm = "any_value_is_missing" ∨ ignm = "never") :
    column_map_expectation funcName funcE df c mostly level (some cond) cp
      = Except.error
        "conditionParser is required when setting a row_condition, and must be python or pandas"
    ∧ column_pair_map_expectation pred2 df cA cB mostly ign level
        (some cond) cp₁
      = column_pair_map_expectation pred2 df cA cB mostly ign level
          (some cond) cp₂
    ∧ multicolumn_map_expectation predm df cols mostly ignm level
        (some cond) cp₁
      = multicolumn_map_expectation predm df cols mostly ignm level
          (some cond) cp₂
    ∧ is_ok (column_pair_map_expectation pred2 df cA cB mostly ign level
        (some cond) cp₁) = true
    ∧ is_ok (multicolumn_map_expectation predm df cols mostly ignm level
        (some cond) cp₁) = true := by
  refine ⟨?_, rfl, rfl, ?_, ?_⟩
  · simp [column_map_expectation, hcp]
  · rcases hign with rfl | rfl | rfl <;>
      simp [column_pair_map_expectation, pair_null_mask, DataFrame.col,
        is_ok]
  · rcases hignm with rfl | rfl | rfl <;>
      simp [multicolumn_map_expectation, multicolumn_skip_mask, is_ok]

/-- C7 amended witness: concrete evaluations with the parser absent. -/
theorem c7_parser_check_amended_witness :
    column_map_expectation "expect_column_values_to_be_in_set"
        (Except.ok (fun _ => true)) ⟨[0], [[Value.int 1]]⟩ 0 none
        Level.basic (some (fun _ => true)) none
      = Except.error
        "conditionParser is required when setting a row_condition, and must be python or pandas"
    ∧ column_pair_map_expectation (fun _ _ => true) ⟨[0], [[Value.int 1]]⟩
        0 0 none "never" Level.basic (some (fun _ => true)) none
      = column_pair_map_expectation (fun _ _ => true) ⟨[0], [[Value.int 1]]⟩
          0 0 none "never" Level.basic (some (fun _ => true))
          (some "pandas")
    ∧ multicolumn_map_expectation (fun _ => true) ⟨[0], [[Value.int 1]]⟩
        [0] none "never" Level.basic (some (fun _ => true)) none
      = multicolumn_map_expectation (fun _ => true) ⟨[0], [[Value.int 1]]⟩
          [0] none "never" Level.basic (some (fun _ => true))
          (some "pandas")
    ∧ is_ok (column_pair_map_expectation (fun _ _ => true)
        ⟨[0], [[Value.int 1]]⟩ 0 0 none "never" Level.basic
        (some (fun _ => true)) none) = true
    ∧ is_ok (multicolumn_map_expectation (fun _ => true)
        ⟨[0], [[Value.int 1]]⟩ [0] none "never" Level.basic
        (some (fun _ => true)) none) = true :=
  c7_parser_check_amended "expect_column_values_to_be_in_set"
    (Except.ok (fun _ => true)) (fun _ _ => true) (fun _ => true)
    ⟨[0], [[Value.int 1]]⟩ 0 0 0 [0] none "never" "never" Level.basic
    (fun _ => true) none none (some "pandas") (by simp)
    (Or.inr (Or.inr rfl)) (Or.inr (Or.inr rfl))

/-- C8 counterexample: on the aggregate path an unrecognized type name
(resolving to zero comparable types) does not fail: the routed of-type
evaluation on a closed int64 column with the unknown name "not_a_type"
returns a result with success false instead of a configuration error. -/
theorem c8_counterexample :
    resolve_comp_types trivial_oracle "not_a_type" = []
    ∧ expect_column_values_to_be_of_type trivial_oracle ⟨[], true⟩ ⟨[], []⟩
        "a" 0 ⟨"int64", "int64"⟩ (some "not_a_type") none Level.basic none
        none [] []
      = Except.ok (⟨[], true⟩, TypeCheckResult.agg ⟨false, "int64"⟩) :=
  ⟨by decide, rfl⟩

/-- C8 as amended: when the requested name(s) resolve to zero comparable
types, the two map-path bodies fail with the unrecognized-type
configuration error, while the two aggregate-path bodies return a result
whose success is false (the declared type never belongs to an empty
resolved set) with the declared type name as `observed_value`. -/
theorem c8_unrecognized_type_amended (o : TypeOracle) (df : DataFrame)
    (c : Nat) (type_ : String) (type_list : List String) (dt : Dtype)
    (mostly : Option ℚ) (level : Level)
    (h1 : resolve_comp_types o type_ = [])
    (h2 : resolve_comp_types_list o type_list = []) :
    of_type_map o df c type_ mostly level none none
      = Except.error ("Unrecognized numpy/python type: " ++ type_)
    ∧ in_type_list_map o df c type_list mostly level none none
      = Except.error "No recognized numpy/python type in list"
    ∧ of_type_aggregate o dt (some type_) none
      = Except.ok { success := false, observed_value := dt.typeTag }
    ∧ in_type_list_aggregate o dt (some type_list) none
      = Except.ok { success := false, observed_value := dt.typeTag } := by
  refine ⟨?_, ?_, ?_, ?_⟩
  · simp [of_type_map, column_map_expectation, of_type_map_func, h1]
  · simp [in_type_list_map, column_map_expectation, in_type_list_map_func,
      h2]
  · simp [of_type_aggregate, h1]
  · simp [in_type_list_aggregate, h2]

/-- C8 amended witness: the concrete unknown name "not_a_type". -/
theorem c8_unrecognized_type_amended_witness :
    of_type_map trivial_oracle ⟨[0], [[Value.int 1]]⟩ 0 "not_a_type" none
        Level.basic none none
      = Except.error ("Unrecognized numpy/python type: " ++ "not_a_type")
    ∧ in_type_list_map trivial_oracle ⟨[0], [[Value.int 1]]⟩ 0
        ["not_a_type"] none Level.basic none none
      = Except.error "No recognized numpy/python type in list"
    ∧ of_type_aggregate trivial_oracle ⟨"int64", "int64"⟩
        (some "not_a_type") none
      = Except.ok { success := false, observed_value := "int64" }
    ∧ in_type_list_aggregate trivial_oracle ⟨"int64", "int64"⟩
        (some ["not_a_type"]) none
      = Except.ok { success := false, observed_value := "int64" } :=
  c8_unrecognized_type_amended trivial_oracle ⟨[0], [[Value.int 1]]⟩ 0
    "not_a_type" ["not_a_type"] ⟨"int64", "int64"⟩ none Level.basic
    (by decide) (by decide)

/-- C2 (code bug): on a column `[null, 3]`, at BASIC and above the two
null-presence checks return results omitting `missing_count`,
`missing_percent` and `unexpected_percent_nonmissing`, and another
column-map check at SUMMARY and above carries all three; but at
BOOLEAN_ONLY a null-presence check raises a KeyError instead of returning a
result, because the unconditional deletion of the three fields reaches into
the `"result"` entry that the boolean-only format does not create. -/
theorem c2_null_checks_missing_fields :
    expect_column_values_to_be_null ⟨[0, 1], [[Value.null], [Value.int 3]]⟩
        0 none Level.boolean_only none none
      = Except.error "KeyError: result"
    ∧ expect_column_values_to_not_be_null
        ⟨[0, 1], [[Value.null], [Value.int 3]]⟩ 0 none Level.boolean_only
        none none
      = Except.error "KeyError: result"
    ∧ (expect_column_values_to_be_null
        ⟨[0, 1], [[Value.null], [Value.int 3]]⟩ 0 none Level.basic none
        none).map
        (fun r => r.result.map (fun f => (f.missing_count.isSome,
          f.missing_percent.isSome, f.unexpected_percent_nonmissing.isSome)))
      = Except.ok (some (false, false, false))
    ∧ (expect_column_values_to_be_null
        ⟨[0, 1], [[Value.null], [Value.int 3]]⟩ 0 none Level.summary none
        none).map
        (fun r => r.result.map (fun f => (f.missing_count.isSome,
          f.missing_percent.isSome, f.unexpected_percent_nonmissing.isSome)))
      = Except.ok (some (false, false, false))
    ∧ (expect_column_values_to_not_be_null
        ⟨[0, 1], [[Value.null], [Value.int 3]]⟩ 0 none Level.complete none
        none).map
        (fun r => r.result.map (fun f => (f.missing_count.isSome,
          f.missing_percent.isSome, f.unexpected_percent_nonmissing.isSome)))
      = Except.ok (some (false, false, false))
    ∧ (expect_column_values_to_be_in_set (some [Value.int 3])
        ⟨[0, 1], [[Value.null], [Value.int 3]]⟩ 0 none Level.summary none
        none).map
        (fun r => r.result.map (fun f => (f.missing_count.isSome,
          f.missing_percent.isSome, f.unexpected_percent_nonmissing.isSome)))
      = Except.ok (some (true, true, true))
    ∧ (expect_column_values_to_be_in_set (some [Value.int 3])
        ⟨[0, 1], [[Value.null], [Value.int 3]]⟩ 0 none Level.complete none
        none).map
        (fun r => r.result.map (fun f => (f.missing_count.isSome,
          f.missing_percent.isSome, f.unexpected_percent_nonmissing.isSome)))
      = Except.ok (some (true, true, true)) := by
  refine ⟨rfl, rfl, rfl, rfl, rfl, rfl, rfl⟩

/-- In a densely indexed enumeration (labels `0..n-1` zipped with payloads
and mapped under a label-preserving function), every member's label is its
position: it is below the length and looking the label up returns the
member itself. -/
theorem dense_zip_map_fst {α β : Type} (n : Nat) (rows : List α)
    (g : α → β) (hn : rows.length = n) (p : Nat × β)
    (hp : p ∈ ((List.range n).zip rows).map (fun q => (q.1, g q.2))) :
    p.1 < n
    ∧ (((List.range n).zip rows).map (fun q => (q.1, g q.2))).get? p.1
      = some p := by
  obtain ⟨k, hk, hget⟩ := List.mem_iff_getElem.mp hp
  have hlen : (((List.range n).zip rows).map
      (fun q => (q.1, g q.2))).length = n := by
    simp [List.length_zip, hn]
  have hkn : k < n := by rw [hlen] at hk; exact hk
  have hfst : p.1 = k := by
    rw [← hget]
    simp [List.getElem_map, List.getElem_zip, List.getElem_range]
  constructor
  · rw [hfst]; exact hkn
  · rw [hfst, List.get?_eq_getElem?, List.getElem?_eq_getElem
      (by rw [hlen]; exact hkn)]
    exact congrArg some hget

/-- Rows surviving the mask all come from the original series. -/
theorem masked_out_subset {α : Type} (l : List α) (mask : List Bool) :
    ∀ x ∈ masked_out l mask, x ∈ l := by
  intro x hx
  unfold masked_out at hx
  obtain ⟨⟨y, b⟩, hmem, hy⟩ := List.mem_filterMap.mp hx
  have : y = x := by
    by_cases hb : b <;> simp [hb] at hy <;> exact hy
  exact this ▸ (List.of_mem_zip hmem).1

/-- The non-ignored rows of the column-map wrapper come from the series. -/
theorem column_map_nonnull_subset (funcName : String)
    (series : List (Nat × Value)) :
    ∀ p ∈ column_map_nonnull funcName series, p ∈ series := by
  intro p hp
  exact masked_out_subset series _ p hp

/-- At the COMPLETE detail level the formatter reports the full unexpected
index sequence it was given. -/
theorem format_complete_index_list {α : Type} [DecidableEq α]
    (rf : ResultFormat) (success : Bool) (ec nc uc : Nat) (ul : List α)
    (uil : List Nat) (h : rf.result_format = Level.complete) :
    ∀ fields, (format_map_output rf success ec nc uc ul uil).result
      = some fields → fields.unexpected_index_list = some uil := by
  unfold format_map_output
  simp [h]

/-- At the COMPLETE detail level the column-map core reports exactly its
internal unexpected index list, for ordinary checks and for the
null-presence special case alike (the field deletions leave the index list
untouched). -/
theorem column_map_core_complete_index (funcName : String)
    (pred : Value → Bool) (data : DataFrame) (c : Nat) (mostly : Option ℚ) :
    ∀ r fields, column_map_expectation_core funcName pred data c mostly
        (parse_result_format Level.complete) = Except.ok r →
      r.result = some fields →
      fields.unexpected_index_list = some ((column_map_unexpected pred
        (column_map_nonnull funcName (data.col c))).map Prod.fst) := by
  intro r fields hcall hfields
  unfold column_map_expectation_core at hcall
  by_cases hname : funcName ∈ null_check_names
  · simp only [if_pos hname] at hcall
    split at hcall
    · exact absurd hcall (by simp)
    · next fields0 heq =>
        cases hcall
        simp only at hfields
        cases hfields
        have := format_complete_index_list _ _ _ _ _ _ _ rfl fields0 heq
        simpa using this
  · simp only [if_neg hname] at hcall
    cases hcall
    exact format_complete_index_list _ _ _ _ _ _ _ rfl fields hfields

/-- C9: filtering by a row condition resets the working dataset's index to
the dense sequence `0..N-1`, so in all three map-style strategies every
entry of the unexpected index list is the position of the offending element
inside the filtered data: it is below the filtered length, and looking it
up in the filtered series returns that very element. The column-map
conjunct also ties the internal list to the `unexpected_index_list`
reported at the COMPLETE detail level. -/
theorem c9_row_filter_dense_index (df : DataFrame) (cond : Row → Bool)
    (funcName : String) (pred : Value → Bool)
    (pred2 : Value → Value → Bool) (predm : List Value → Bool)
    (c cA cB : Nat) (cols : List Nat) (mostly : Option ℚ)
    (ign ignm : String) :
    ((df.query cond).reset_index).idx
      = List.range ((df.query cond).reset_index).rows.length
    ∧ (∀ p ∈ column_map_unexpected pred (column_map_nonnull funcName
        (((df.query cond).reset_index).col c)),
        p.1 < ((df.query cond).reset_index).rows.length
        ∧ (((df.query cond).reset_index).col c).get? p.1 = some p
        ∧ pred p.2 = false)
    ∧ (∀ r fields, column_map_expectation funcName (Except.ok pred) df c
          mostly Level.complete (some cond) (some "pandas")
          = Except.ok r → r.result = some fields →
        fields.unexpected_index_list
          = some ((column_map_unexpected pred (column_map_nonnull funcName
              (((df.query cond).reset_index).col c))).map Prod.fst))
    ∧ (∀ mask, pair_null_mask ign (((df.query cond).reset_index).col cA)
          (((df.query cond).reset_index).col cB) = Except.ok mask →
        ∀ p ∈ (masked_out ((((df.query cond).reset_index).col cA).zip
            (((df.query cond).reset_index).col cB)) mask).filter
            (fun q => !pred2 q.1.2 q.2.2),
          p.1.1 < ((df.query cond).reset_index).rows.length
          ∧ (((df.query cond).reset_index).col cA).get? p.1.1 = some p.1)
    ∧ (∀ mask, multicolumn_skip_mask ignm
          ((((df.query cond).reset_index).idx.zip
            ((df.query cond).reset_index).rows).map
            (fun q => (q.1, q.2.select cols))) = Except.ok mask →
        ∀ p ∈ (masked_out ((((df.query cond).reset_index).idx.zip
            ((df.query cond).reset_index).rows).map
            (fun q => (q.1, q.2.select cols))) mask).filter
            (fun q => !predm q.2),
          p.1 < ((df.query cond).reset_index).rows.length
          ∧ ((((df.query cond).reset_index).idx.zip
              ((df.query cond).reset_index).rows).map
              (fun q => (q.1, q.2.select cols))).get? p.1 = some p) := by
  refine ⟨rfl, ?_, ?_, ?_, ?_⟩
  · intro p hp
    have hmem : p ∈ ((df.query cond).reset_index).col c :=
      column_map_nonnull_subset funcName _ p
        (List.mem_of_mem_filter hp)
    have hpred : pred p.2 = false := by
      have := List.of_mem_filter hp
      simpa using this
    have hdense := dense_zip_map_fst ((df.query cond).rows.length)
      ((df.query cond).rows) (fun row => row.getD c Value.null) rfl p
      (by
        have : ((df.query cond).reset_index).col c
            = ((List.range ((df.query cond).rows.length)).zip
              ((df.query cond).rows)).map
              (fun q => (q.1, q.2.getD c Value.null)) := rfl
        rw [this] at hmem
        exact hmem)
    exact ⟨hdense.1, hdense.2, hpred⟩
  · intro r fields hcall hfields
    have hstep : column_map_expectation funcName (Except.ok pred) df c
        mostly Level.complete (some cond) (some "pandas")
        = column_map_expectation_core funcName pred
            ((df.query cond).reset_index) c mostly
            (parse_result_format Level.complete) := by
      simp [column_map_expectation]
    rw [hstep] at hcall
    exact column_map_core_complete_index funcName pred _ c mostly r fields
      hcall hfields
  · intro mask hmask p hp
    have hmem : p.1 ∈ ((df.query cond).reset_index).col cA := by
      have hsub := masked_out_subset _ mask p (List.mem_of_mem_filter hp)
      exact (List.of_mem_zip hsub).1
    have hdense := dense_zip_map_fst ((df.query cond).rows.length)
      ((df.query cond).rows) (fun row => row.getD cA Value.null) rfl p.1
      hmem
    exact ⟨hdense.1, hdense.2⟩
  · intro mask hmask p hp
    have hmem := masked_out_subset _ mask p (List.mem_of_mem_filter hp)
    have hdense := dense_zip_map_fst ((df.query cond).rows.length)
      ((df.query cond).rows) (fun row => row.select cols) rfl p hmem
    exact ⟨hdense.1, hdense.2⟩

/-- C9 witness: filtering a concrete three-row dataframe resets its index
to the dense sequence over the surviving rows. -/
theorem c9_row_filter_dense_index_witness :
    (((⟨[0, 1, 2], [[Value.int 1], [Value.int 2], [Value.int 3]]⟩ :
        DataFrame).query
        (fun r => !(r.getD 0 Value.null == Value.int 2))).reset_index).idx
      = List.range
          ((((⟨[0, 1, 2], [[Value.int 1], [Value.int 2], [Value.int 3]]⟩ :
            DataFrame).query
            (fun r => !(r.getD 0 Value.null
              == Value.int 2))).reset_index).rows.length) :=
  (c9_row_filter_dense_index
    ⟨[0, 1, 2], [[Value.int 1], [Value.int 2], [Value.int 3]]⟩
    (fun r => !(r.getD 0 Value.null == Value.int 2))
    "expect_column_values_to_be_in_set" (fun _ => true) (fun _ _ => true)
    (fun _ => true) 0 0 0 [0] none "both_values_are_missing"
    "all_values_are_missing").1

/-- Composing two index shifts is shifting by the sum. -/
theorem map_add_add (a b : Nat) (l : List Nat) :
    (l.map (fun i => i + a)).map (fun i => i + b)
      = l.map (fun i => i + (a + b)) := by
  rw [List.map_map]
  apply List.map_congr_left
  intro i _
  simp [Function.comp, Nat.add_assoc]

/-- Suite search distributes over concatenation, shifting the second
block's positions by the first block's length. -/
theorem find_append (s₁ s₂ : Suite) (ty col : String) :
    find_expectation_indexes (s₁ ++ s₂) ty col
      = find_expectation_indexes s₁ ty col
        ++ (find_expectation_indexes s₂ ty col).map
          (fun i => i + s₁.length) := by
  induction s₁ with
  | nil => simp [find_expectation_indexes]
  | cons e rest ih =>
    by_cases h : expectation_matches e ty col
    · simp [find_expectation_indexes, h, ih, List.map_append, map_add_add]
    · simp [find_expectation_indexes, h, ih, List.map_append, map_add_add]

/-- A suite with no matching record yields no positions. -/
theorem find_eq_nil (s : Suite) (ty col : String)
    (h : ∀ e ∈ s, expectation_matches e ty col = false) :
    find_expectation_indexes s ty col = [] := by
  induction s with
  | nil => rfl
  | cons e rest ih =>
    simp only [find_expectation_indexes]
    rw [if_neg (by simp [h e (List.mem_cons_self e rest)]),
      ih (fun x hx => h x (List.mem_cons_of_mem e hx))]
    rfl

/-- Searching a one-record suite. -/
theorem find_singleton (e : ExpectationConfiguration) (ty col : String) :
    find_expectation_indexes [e] ty col
      = if expectation_matches e ty col then [0] else [] := by
  by_cases h : expectation_matches e ty col <;>
    simp [find_expectation_indexes, h]

/-- A list with exactly one element satisfying a predicate splits around
that element, with no other satisfying element on either side. -/
theorem countP_one_decomp {α : Type} (p : α → Bool) :
    ∀ (s : List α), s.countP p = 1 →
      ∃ l₁ e l₂, s = l₁ ++ e :: l₂ ∧ p e = true
        ∧ l₁.countP p = 0 ∧ l₂.countP p = 0 := by
  intro s
  induction s with
  | nil => intro h; simp [List.countP_nil] at h
  | cons a rest ih =>
    intro h
    by_cases hp : p a
    · have hrest : rest.countP p = 0 := by
        rw [List.countP_cons, if_pos hp] at h
        omega
      exact ⟨[], a, rest, rfl, hp, rfl, hrest⟩
    · have hrest : rest.countP p = 1 := by
        rw [List.countP_cons, if_neg hp] at h
        omega
      obtain ⟨l₁, e, l₂, hs, he, h₁, h₂⟩ := ih hrest
      exact ⟨a :: l₁, e, l₂, by rw [hs]; rfl, he,
        by rw [List.countP_cons, if_neg hp]; omega, h₂⟩

/-- Removing the element just after a prefix keeps prefix and suffix. -/
theorem eraseIdx_append_cons {α : Type} :
    ∀ (l₁ : List α) (e : α) (l₂ : List α),
      (l₁ ++ e :: l₂).eraseIdx l₁.length = l₁ ++ l₂ := by
  intro l₁
  induction l₁ with
  | nil => intro e l₂; rfl
  | cons a rest ih =>
    intro e l₂
    simp only [List.cons_append, List.length_cons, List.eraseIdx,
      List.append_eq]
    rw [ih e l₂]

/-- Reading the position just after a prefix returns the element there. -/
theorem get?_append_cons {α : Type} :
    ∀ (l₁ : List α) (e : α) (l₂ : List α),
      (l₁ ++ e :: l₂).get? l₁.length = some e := by
  intro l₁
  induction l₁ with
  | nil => intro e l₂; rfl
  | cons a rest ih =>
    intro e l₂
    simpa using ih e l₂

/-- Writing the position just after a prefix replaces the element there. -/
theorem set_append_cons {α : Type} :
    ∀ (l₁ : List α) (e x : α) (l₂ : List α),
      (l₁ ++ e :: l₂).set l₁.length x = l₁ ++ x :: l₂ := by
  intro l₁
  induction l₁ with
  | nil => intro e x l₂; rfl
  | cons a rest ih =>
    intro e x l₂
    simp only [List.cons_append, List.length_cons, List.set,
      List.append_eq]
    rw [ih e x l₂]

/-- The suite bookkeeping step performed after a routed type check: on a
suite holding no routed-name records and at most one record with the public
identity, it succeeds, and afterwards the suite holds exactly one record
with the public identity — the relabeled routed record carrying the fresh
kwargs, meta and success flag — every record being either an original one
or that relabeled record. -/
theorem routed_bookkeeping_spec (s : Suite)
    (routedName pubName colName : String)
    (kw meta : List (String × String)) (succ : Bool)
    (hneq : routedName ≠ pubName)
    (hr : ∀ e ∈ s, e.expectation_type ≠ routedName)
    (hpub : s.countP (fun e => expectation_matches e pubName colName) ≤ 1) :
    ∃ t, routed_bookkeeping s routedName pubName colName kw meta succ
        = Except.ok t
      ∧ t.countP (fun e => expectation_matches e pubName colName) = 1
      ∧ (∀ e ∈ t, e ∈ s ∨ e = ⟨pubName, colName, kw, meta, some succ⟩)
      ∧ (∀ e ∈ t, expectation_matches e pubName colName = true →
          e = ⟨pubName, colName, kw, meta, some succ⟩) := by
  have hmr : ∀ e ∈ s, expectation_matches e routedName colName = false := by
    intro e he
    simp [expectation_matches, beq_eq_false_iff_ne.mpr (hr e he)]
  have h1 : append_expectation s
      ⟨routedName, colName, kw, meta, some succ⟩
      = s ++ [⟨routedName, colName, kw, meta, some succ⟩] := by
    unfold append_expectation
    rw [List.filter_eq_self.mpr]
    intro e he
    simp [hmr e he]
  have hpc : expectation_matches ⟨routedName, colName, kw, meta, some succ⟩
      pubName colName = false := by
    simp [expectation_matches, beq_eq_false_iff_ne.mpr hneq]
  have hrc : expectation_matches ⟨routedName, colName, kw, meta, some succ⟩
      routedName colName = true := by
    simp [expectation_matches]
  have hfind1 : find_expectation_indexes
      (s ++ [⟨routedName, colName, kw, meta, some succ⟩]) pubName colName
      = find_expectation_indexes s pubName colName := by
    rw [find_append, find_singleton, hpc]
    simp
  have hfr : find_expectation_indexes s routedName colName = [] :=
    find_eq_nil s routedName colName hmr
  have hpmatch : expectation_matches ⟨pubName, colName, kw, meta, some succ⟩
      pubName colName = true := by
    simp [expectation_matches]
  have hcases : s.countP (fun e => expectation_matches e pubName colName)
      = 0 ∨ s.countP (fun e => expectation_matches e pubName colName)
      = 1 := by omega
  rcases hcases with hc0 | hc1
  · -- no pre-existing public record: nothing is popped
    have hfinds : find_expectation_indexes s pubName colName = [] := by
      apply find_eq_nil
      intro e he
      have := List.countP_eq_zero.mp hc0 e he
      simpa using this
    have hnews : find_expectation_indexes
        (s ++ [(⟨routedName, colName, kw, meta, some succ⟩ : ExpectationConfiguration)])
        routedName colName = [s.length] := by
      rw [find_append, hfr, find_singleton, hrc]
      simp
    have hget : (s ++ [(⟨routedName, colName, kw, meta, some succ⟩ : ExpectationConfiguration)])[s.length]?
        = some (⟨routedName, colName, kw, meta, some succ⟩ : ExpectationConfiguration) := by
      rw [← List.get?_eq_getElem?]
      exact get?_append_cons s _ []
    have hset : (s ++ [(⟨routedName, colName, kw, meta, some succ⟩ : ExpectationConfiguration)]).set s.length
        (⟨pubName, colName, kw, meta, some succ⟩ : ExpectationConfiguration)
        = s ++ [(⟨pubName, colName, kw, meta, some succ⟩ : ExpectationConfiguration)] :=
      set_append_cons s _ _ []
    have hval : routed_bookkeeping s routedName pubName colName kw meta succ
        = Except.ok (s ++ [(⟨pubName, colName, kw, meta, some succ⟩ : ExpectationConfiguration)]) := by
      unfold routed_bookkeeping
      simp [h1, hfind1, hfinds, hnews, List.getD, hget, hset]
    refine ⟨_, hval, ?_, ?_, ?_⟩
    · rw [List.countP_append, hc0, List.countP_cons, if_pos hpmatch]
      rfl
    · intro e he
      rcases List.mem_append.mp he with h | h
      · exact Or.inl h
      · exact Or.inr (by simpa using h)
    · intro e he hm
      rcases List.mem_append.mp he with h | h
      · exact absurd hm (by
          have := List.countP_eq_zero.mp hc0 e h
          simpa using this)
      · simpa using h
  · -- exactly one pre-existing public record: it is popped
    obtain ⟨l₁, m, l₂, hs, hm, hl₁, hl₂⟩ :=
      countP_one_decomp (fun e => expectation_matches e pubName colName) s
        hc1
    have hml₁ : ∀ e ∈ l₁, expectation_matches e pubName colName = false := by
      intro e he
      have := List.countP_eq_zero.mp hl₁ e he
      simpa using this
    have hml₂ : ∀ e ∈ l₂, expectation_matches e pubName colName = false := by
      intro e he
      have := List.countP_eq_zero.mp hl₂ e he
      simpa using this
    have hfinds : find_expectation_indexes s pubName colName
        = [l₁.length] := by
      rw [hs, ← List.singleton_append, ← List.append_assoc]
      rw [find_append, find_append, find_singleton, hm,
        find_eq_nil l₁ _ _ hml₁, find_eq_nil l₂ _ _ hml₂]
      simp
    have hrl : ∀ e ∈ l₁ ++ l₂, expectation_matches e routedName colName
        = false := by
      intro e he
      refine hmr e ?_
      rw [hs]
      rcases List.mem_append.mp he with h | h
      · exact List.mem_append.mpr (Or.inl h)
      · exact List.mem_append.mpr (Or.inr (List.mem_cons_of_mem m h))
    have herase : (s ++ [(⟨routedName, colName, kw, meta, some succ⟩ : ExpectationConfiguration)]).eraseIdx l₁.length
        = (l₁ ++ l₂) ++ [(⟨routedName, colName, kw, meta, some succ⟩ : ExpectationConfiguration)] := by
      rw [hs, List.append_assoc, List.append_assoc]
      have := eraseIdx_append_cons l₁ m
        (l₂ ++ [(⟨routedName, colName, kw, meta, some succ⟩ : ExpectationConfiguration)])
      simpa [List.append_assoc] using this
    have hnews : find_expectation_indexes
        ((l₁ ++ l₂) ++ [(⟨routedName, colName, kw, meta, some succ⟩ : ExpectationConfiguration)])
        routedName colName = [(l₁ ++ l₂).length] := by
      rw [find_append, find_singleton, hrc, find_eq_nil (l₁ ++ l₂) _ _ hrl]
      simp
    have hget : ((l₁ ++ l₂) ++ [(⟨routedName, colName, kw, meta, some succ⟩ : ExpectationConfiguration)])[(l₁ ++ l₂).length]?
        = some (⟨routedName, colName, kw, meta, some succ⟩ : ExpectationConfiguration) := by
      rw [← List.get?_eq_getElem?]
      exact get?_append_cons (l₁ ++ l₂) _ []
    have hset : ((l₁ ++ l₂) ++ [(⟨routedName, colName, kw, meta, some succ⟩ : ExpectationConfiguration)]).set (l₁ ++ l₂).length
        (⟨pubName, colName, kw, meta, some succ⟩ : ExpectationConfiguration)
        = (l₁ ++ l₂) ++ [(⟨pubName, colName, kw, meta, some succ⟩ : ExpectationConfiguration)] :=
      set_append_cons (l₁ ++ l₂) _ _ []
    have hval : routed_bookkeeping s routedName pubName colName kw meta succ
        = Except.ok ((l₁ ++ l₂) ++ [(⟨pubName, colName, kw, meta, some succ⟩ : ExpectationConfiguration)]) := by
      have hnews' := hnews
      have hget' := hget
      have hset' := hset
      simp only [List.append_assoc, List.length_append] at hnews'
      simp only [List.append_assoc, List.length_append] at hget'
      simp only [List.append_assoc, List.length_append] at hset'
      unfold routed_bookkeeping
      simp [h1, hfind1, hfinds, List.getD, herase, hnews', hget', hset']
    refine ⟨_, hval, ?_, ?_, ?_⟩
    · rw [List.countP_append, List.countP_append, hl₁, hl₂,
        List.countP_cons, if_pos hpmatch]
      rfl
    · intro e he
      rcases List.mem_append.mp he with h | h
      · rcases List.mem_append.mp h with h' | h'
        · exact Or.inl (by rw [hs]; simp [h'])
        · exact Or.inl (by rw [hs]; simp [h'])
      · exact Or.inr (by simpa using h)
    · intro e he hmm
      rcases List.mem_append.mp he with h | h
      · rcases List.mem_append.mp h with h' | h'
        · exact absurd hmm (by simp [hml₁ e h'])
        · exact absurd hmm (by simp [hml₂ e h'])
      · simpa using h

/-- When the bookkeeping step returns a suite, that suite carries exactly
one public-identity record, each record is an original or the relabeled
one, and any public-identity record is the relabeled one. -/
theorem routed_bookkeeping_ok_props (s : Suite)
    (routedName pubName colName : String)
    (kw meta : List (String × String)) (succ : Bool) (t : Suite)
    (hneq : routedName ≠ pubName)
    (hr : ∀ e ∈ s, e.expectation_type ≠ routedName)
    (hpub : s.countP (fun e => expectation_matches e pubName colName) ≤ 1)
    (heq : routed_bookkeeping s routedName pubName colName kw meta succ
      = Except.ok t) :
    t.countP (fun e => expectation_matches e pubName colName) = 1
    ∧ (∀ e ∈ t, e ∈ s ∨ e = ⟨pubName, colName, kw, meta, some succ⟩)
    ∧ (∀ e ∈ t, expectation_matches e pubName colName = true →
        e = ⟨pubName, colName, kw, meta, some succ⟩) := by
  obtain ⟨t', ht', h1, h2, h3⟩ :=
    routed_bookkeeping_spec s routedName pubName colName kw meta succ hneq
      hr hpub
  rw [heq] at ht'
  cases ht'
  exact ⟨h1, h2, h3⟩

/-- C3: a type-routed evaluation against a persisted suite (outside active
validation), starting from a suite with no internal routed-name records and
at most one record with the public identity, leaves the suite with exactly
one record with the public (kind, column) identity, no record under any of
the four internal routed names, and the surviving public record carries the
routed entry's kwargs, meta and the evaluation's success flag. -/
theorem c3_suite_normalization (o : TypeOracle) (st : EngineState)
    (df : DataFrame) (colName : String) (c : Nat) (dt : Dtype)
    (type_ : Option String) (type_list : Option (List String))
    (mostly : Option ℚ) (level : Level) (rc : Option (Row → Bool))
    (cp : Option String) (kw meta : List (String × String))
    (st₁ st₂ : EngineState) (r₁ r₂ : TypeCheckResult)
    (hav : st.active_validation = false)
    (hclean : ∀ e ∈ st.suite,
      e.expectation_type ≠ "_expect_column_values_to_be_of_type__aggregate"
      ∧ e.expectation_type ≠ "_expect_column_values_to_be_of_type__map"
      ∧ e.expectation_type
        ≠ "_expect_column_values_to_be_in_type_list__aggregate"
      ∧ e.expectation_type
        ≠ "_expect_column_values_to_be_in_type_list__map")
    (hpub1 : st.suite.countP (fun e => expectation_matches e
      "expect_column_values_to_be_of_type" colName) ≤ 1)
    (hpub2 : st.suite.countP (fun e => expectation_matches e
      "expect_column_values_to_be_in_type_list" colName) ≤ 1)
    (hcall1 : expect_column_values_to_be_of_type o st df colName c dt type_
      mostly level rc cp kw meta = Except.ok (st₁, r₁))
    (hcall2 : expect_column_values_to_be_in_type_list o st df colName c dt
      type_list mostly level rc cp kw meta = Except.ok (st₂, r₂)) :
    (st₁.suite.countP (fun e => expectation_matches e
        "expect_column_values_to_be_of_type" colName) = 1
      ∧ (∀ e ∈ st₁.suite,
          e.expectation_type
            ≠ "_expect_column_values_to_be_of_type__aggregate"
          ∧ e.expectation_type ≠ "_expect_column_values_to_be_of_type__map"
          ∧ e.expectation_type
            ≠ "_expect_column_values_to_be_in_type_list__aggregate"
          ∧ e.expectation_type
            ≠ "_expect_column_values_to_be_in_type_list__map")
      ∧ (∀ e ∈ st₁.suite, expectation_matches e
          "expect_column_values_to_be_of_type" colName = true →
          e.kwargs = kw ∧ e.meta = meta
          ∧ e.success_on_last_run = some r₁.success))
    ∧ (st₂.suite.countP (fun e => expectation_matches e
        "expect_column_values_to_be_in_type_list" colName) = 1
      ∧ (∀ e ∈ st₂.suite,
          e.expectation_type
            ≠ "_expect_column_values_to_be_of_type__aggregate"
          ∧ e.expectation_type ≠ "_expect_column_values_to_be_of_type__map"
          ∧ e.expectation_type
            ≠ "_expect_column_values_to_be_in_type_list__aggregate"
          ∧ e.expectation_type
            ≠ "_expect_column_values_to_be_in_type_list__map")
      ∧ (∀ e ∈ st₂.suite, expectation_matches e
          "expect_column_values_to_be_in_type_list" colName = true →
          e.kwargs = kw ∧ e.meta = meta
          ∧ e.success_on_last_run = some r₂.success)) := by
  constructor
  · -- the of-type evaluation
    have hmain : ∃ routedName res succ,
        (routedName = "_expect_column_values_to_be_of_type__aggregate"
          ∨ routedName = "_expect_column_values_to_be_of_type__map")
        ∧ routed_bookkeeping st.suite routedName
            "expect_column_values_to_be_of_type" colName kw meta succ
            = Except.ok st₁.suite
        ∧ r₁ = res ∧ res.success = succ := by
      by_cases hroute : of_type_route_condition dt type_ = true
      · simp only [expect_column_values_to_be_of_type, hroute,
          if_true] at hcall1
        rcases hA : of_type_aggregate o dt type_ mostly with e | res <;>
          rw [hA] at hcall1
        · exact absurd hcall1 (by simp)
        · simp only [hav, Bool.false_eq_true, if_false] at hcall1
          rcases hB : routed_bookkeeping st.suite
              "_expect_column_values_to_be_of_type__aggregate"
              "expect_column_values_to_be_of_type" colName kw meta
              res.success with e | s' <;> rw [hB] at hcall1
          · exact absurd hcall1 (by simp)
          · cases hcall1
            exact ⟨_, TypeCheckResult.agg res, res.success, Or.inl rfl,
              hB, rfl, rfl⟩
      · have hroute' : of_type_route_condition dt type_ = false := by
          simpa using hroute
        simp only [expect_column_values_to_be_of_type, hroute',
          Bool.false_eq_true, if_false] at hcall1
        rcases hA : of_type_map o df c (type_.getD "") mostly level rc cp
          with e | res <;> rw [hA] at hcall1
        · exact absurd hcall1 (by simp)
        · simp only [hav, Bool.false_eq_true, if_false] at hcall1
          rcases hB : routed_bookkeeping st.suite
              "_expect_column_values_to_be_of_type__map"
              "expect_column_values_to_be_of_type" colName kw meta
              res.success with e | s' <;> rw [hB] at hcall1
          · exact absurd hcall1 (by simp)
          · cases hcall1
            exact ⟨_, TypeCheckResult.map res, res.success, Or.inr rfl,
              hB, rfl, rfl⟩
    obtain ⟨rn, res, succ, hrn, hbk, hres, hsucc⟩ := hmain
    have hneq : rn ≠ "expect_column_values_to_be_of_type" := by
      rcases hrn with rfl | rfl <;> decide
    have hr : ∀ e ∈ st.suite, e.expectation_type ≠ rn := by
      intro e he
      rcases hrn with rfl | rfl
      · exact (hclean e he).1
      · exact (hclean e he).2.1
    obtain ⟨h1, h2, h3⟩ := routed_bookkeeping_ok_props st.suite rn
      "expect_column_values_to_be_of_type" colName kw meta succ st₁.suite
      hneq hr hpub1 hbk
    refine ⟨h1, ?_, ?_⟩
    · intro e he
      rcases h2 e he with h | h
      · exact hclean e h
      · rw [h]
        refine ⟨?_, ?_, ?_, ?_⟩ <;> simp
    · intro e he hm
      rw [h3 e he hm, hres, hsucc]
      exact ⟨rfl, rfl, rfl⟩
  · -- the in-type-list evaluation
    have hmain : ∃ routedName res succ,
        (routedName = "_expect_column_values_to_be_in_type_list__aggregate"
          ∨ routedName = "_expect_column_values_to_be_in_type_list__map")
        ∧ routed_bookkeeping st.suite routedName
            "expect_column_values_to_be_in_type_list" colName kw meta succ
            = Except.ok st₂.suite
        ∧ r₂ = res ∧ res.success = succ := by
      by_cases hroute : in_type_list_route_condition dt type_list = true
      · simp only [expect_column_values_to_be_in_type_list, hroute,
          if_true] at hcall2
        rcases hA : in_type_list_aggregate o dt type_list mostly
          with e | res <;> rw [hA] at hcall2
        · exact absurd hcall2 (by simp)
        · simp only [hav, Bool.false_eq_true, if_false] at hcall2
          rcases hB : routed_bookkeeping st.suite
              "_expect_column_values_to_be_in_type_list__aggregate"
              "expect_column_values_to_be_in_type_list" colName kw meta
              res.success with e | s' <;> rw [hB] at hcall2
          · exact absurd hcall2 (by simp)
          · cases hcall2
            exact ⟨_, TypeCheckResult.agg res, res.success, Or.inl rfl,
              hB, rfl, rfl⟩
      · have hroute' : in_type_list_route_condition dt type_list
            = false := by
          simpa using hroute
        simp only [expect_column_values_to_be_in_type_list, hroute',
          Bool.false_eq_true, if_false] at hcall2
        rcases hA : in_type_list_map o df c (type_list.getD []) mostly
          level rc cp with e | res <;> rw [hA] at hcall2
        · exact absurd hcall2 (by simp)
        · simp only [hav, Bool.false_eq_true, if_false] at hcall2
          rcases hB : routed_bookkeeping st.suite
              "_expect_column_values_to_be_in_type_list__map"
              "expect_column_values_to_be_in_type_list" colName kw meta
              res.success with e | s' <;> rw [hB] at hcall2
          · exact absurd hcall2 (by simp)
          · cases hcall2
            exact ⟨_, TypeCheckResult.map res, res.success, Or.inr rfl,
              hB, rfl, rfl⟩
    obtain ⟨rn, res, succ, hrn, hbk, hres, hsucc⟩ := hmain
    have hneq : rn ≠ "expect_column_values_to_be_in_type_list" := by
      rcases hrn with rfl | rfl <;> decide
    have hr : ∀ e ∈ st.suite, e.expectation_type ≠ rn := by
      intro e he
      rcases hrn with rfl | rfl
      · exact (hclean e he).2.2.1
      · exact (hclean e he).2.2.2
    obtain ⟨h1, h2, h3⟩ := routed_bookkeeping_ok_props st.suite rn
      "expect_column_values_to_be_in_type_list" colName kw meta succ
      st₂.suite hneq hr hpub2 hbk
    refine ⟨h1, ?_, ?_⟩
    · intro e he
      rcases h2 e he with h | h
      · exact hclean e h
      · rw [h]
        refine ⟨?_, ?_, ?_, ?_⟩ <;> simp
    · intro e he hm
      rw [h3 e he hm, hres, hsucc]
      exact ⟨rfl, rfl, rfl⟩

/-- C3 witness: a suite holding one stale public of-type record for column
"a"; both routed evaluations (aggregate path, `int64` dtype, absent
constraint) leave exactly one public record per assertion kind. -/
theorem c3_suite_normalization_witness :
    ((([(⟨"expect_column_values_to_be_of_type", "a", [("column", "a")],
          [("m", "1")], some true⟩ : ExpectationConfiguration)] :
        Suite).countP (fun e => expectation_matches e
        "expect_column_values_to_be_of_type" "a") = 1
      ∧ (∀ e ∈ ([(⟨"expect_column_values_to_be_of_type", "a",
          [("column", "a")], [("m", "1")], some true⟩ :
            ExpectationConfiguration)] : Suite),
          e.expectation_type
            ≠ "_expect_column_values_to_be_of_type__aggregate"
          ∧ e.expectation_type ≠ "_expect_column_values_to_be_of_type__map"
          ∧ e.expectation_type
            ≠ "_expect_column_values_to_be_in_type_list__aggregate"
          ∧ e.expectation_type
            ≠ "_expect_column_values_to_be_in_type_list__map")
      ∧ (∀ e ∈ ([(⟨"expect_column_values_to_be_of_type", "a",
          [("column", "a")], [("m", "1")], some true⟩ :
            ExpectationConfiguration)] : Suite),
          expectation_matches e "expect_column_values_to_be_of_type" "a"
            = true →
          e.kwargs = [("column", "a")] ∧ e.meta = [("m", "1")]
          ∧ e.success_on_last_run
            = some (TypeCheckResult.agg ⟨true, "int64"⟩).success)))
    ∧ ((([(⟨"expect_column_values_to_be_of_type", "a", [("k", "v")], [],
          some false⟩ : ExpectationConfiguration),
        (⟨"expect_column_values_to_be_in_type_list", "a", [("column", "a")],
          [("m", "1")], some true⟩ : ExpectationConfiguration)] :
        Suite).countP (fun e => expectation_matches e
        "expect_column_values_to_be_in_type_list" "a") = 1
      ∧ (∀ e ∈ ([(⟨"expect_column_values_to_be_of_type", "a", [("k", "v")],
          [], some false⟩ : ExpectationConfiguration),
          (⟨"expect_column_values_to_be_in_type_list", "a",
            [("column", "a")], [("m", "1")], some true⟩ :
            ExpectationConfiguration)] : Suite),
          e.expectation_type
            ≠ "_expect_column_values_to_be_of_type__aggregate"
          ∧ e.expectation_type ≠ "_expect_column_values_to_be_of_type__map"
          ∧ e.expectation_type
            ≠ "_expect_column_values_to_be_in_type_list__aggregate"
          ∧ e.expectation_type
            ≠ "_expect_column_values_to_be_in_type_list__map")
      ∧ (∀ e ∈ ([(⟨"expect_column_values_to_be_of_type", "a", [("k", "v")],
          [], some false⟩ : ExpectationConfiguration),
          (⟨"expect_column_values_to_be_in_type_list", "a",
            [("column", "a")], [("m", "1")], some true⟩ :
            ExpectationConfiguration)] : Suite),
          expectation_matches e "expect_column_values_to_be_in_type_list"
            "a" = true →
          e.kwargs = [("column", "a")] ∧ e.meta = [("m", "1")]
          ∧ e.success_on_last_run
            = some (TypeCheckResult.agg ⟨true, "int64"⟩).success))) :=
  c3_suite_normalization trivial_oracle
    ⟨[⟨"expect_column_values_to_be_of_type", "a", [("k", "v")], [],
      some false⟩], false⟩
    ⟨[], []⟩ "a" 0 ⟨"int64", "int64"⟩ none none none Level.basic none none
    [("column", "a")] [("m", "1")]
    ⟨[⟨"expect_column_values_to_be_of_type", "a", [("column", "a")],
      [("m", "1")], some true⟩], false⟩
    ⟨[⟨"expect_column_values_to_be_of_type", "a", [("k", "v")], [],
        some false⟩,
      ⟨"expect_column_values_to_be_in_type_list", "a", [("column", "a")],
        [("m", "1")], some true⟩], false⟩
    (TypeCheckResult.agg ⟨true, "int64"⟩)
    (TypeCheckResult.agg ⟨true, "int64"⟩)
    rfl (by decide) (by decide) (by decide) (by decide) (by decide)

end GE
